import Mathlib

/-!
# Verification of the pay-package / gross-margin calculation engine

Shallow embedding of the calculation engine in `src/index.tsx` (`recalc`,
`renderGauge` and their helpers).  JavaScript numbers are modelled as exact
rationals `ℚ`; a form field holds `Option ℚ` — `none` stands for a missing,
empty or unparsable field (`parseFloat` yielding `NaN`), `some q` for a field
whose text parses to the number `q`.  `Number.toFixed(2)` followed by
`parseFloat` is modelled as rounding to the nearest multiple of `1/100`.
-/

namespace Sheet

/-- The fixed client → fee table `CLIENT_FEES` of the source. -/
def CLIENT_FEES : List (String × ℚ) :=
  [("SimpliFI", 6/100),
   ("Careerstaff", 35/1000),
   ("Medical Solutions", 42/1000),
   ("AMN", 5/100),
   ("HWL", 45/1000),
   ("Eisenhower Health", 38/1000),
   ("Focus One", 4/100),
   ("Priority Group", 39/1000),
   ("Intermountain Health", 41/1000),
   ("AYA", 48/1000),
   ("NYCHH", 55/1000),
   ("Medefis", 43/1000)]

/-- Employer burden multiplier for W-2 and specified items. -/
def BURDEN : ℚ := 123/100

/-- Weeks-per-month divisor used by the engine. -/
def WEEKS_IN_MONTH : ℚ := 4

/-- Default used by `valNum("schedule_days", DEFAULT_SCHEDULE_DAYS)`. -/
def DEFAULT_SCHEDULE_DAYS : ℚ := 5

/-- `CLIENT_FEES[client] || 0` — table lookup with default `0`. -/
def clientFee (c : String) : ℚ := (CLIENT_FEES.lookup c).getD 0

/-- `valNum(id, fallback)`: a missing or unparsable field degrades to the
fallback value. -/
def valNum (f : Option ℚ) (fallback : ℚ) : ℚ := f.getD fallback

/-- `v.toFixed(2)` written into a field and read back with `parseFloat`:
rounding to two decimal places. -/
def toFixed2 (q : ℚ) : ℚ := (round (q * 100) : ℚ) / 100

/-- The shared stipend-hourly pattern of the source
(`hrsR > 40 ? w / 40 : (hrsR > 0 ? w / hrsR : 0)`), used for `NH`,
`HA_hourly` and `MI_hourly` with the respective weekly amounts. -/
def stipendHourly (hrsR w : ℚ) : ℚ :=
  if hrsR > 40 then w / 40 else if hrsR > 0 then w / hrsR else 0

/-- The shared one-time-payment spreading pattern of the source
(`contractRegularHours > 0 ? amount / contractRegularHours : 0`). -/
def spreadOverHours (amount cr : ℚ) : ℚ := if cr > 0 then amount / cr else 0

/-- The four textual states of the margin gauge message. -/
inductive GaugeMsg
  | noInput
  | negative
  | belowTarget
  | healthy
deriving DecidableEq

/-- The three stroke colors of the gauge arc. -/
inductive GaugeColor
  | green
  | amber
  | red
deriving DecidableEq

/-- The message branch of `renderGauge` (`margin === 0 && valNum("bill_regular") === 0`,
then `margin < 0`, then `margin < target`, else healthy). -/
def gaugeMsgOf (margin target billReg : ℚ) : GaugeMsg :=
  if margin = 0 ∧ billReg = 0 then .noInput
  else if margin < 0 then .negative
  else if margin < target then .belowTarget
  else .healthy

/-- The gauge progress fraction:
`target > 0 ? margin / (target * 2) : 0`, clamped into `[0, 1]`. -/
def gaugeProgress (margin target : ℚ) : ℚ :=
  max 0 (min 1 (if target > 0 then margin / (target * 2) else 0))

/-- The stroke color of the gauge arc
(`margin >= target` green, `margin > 0` amber, else red). -/
def gaugeColorOf (margin target : ℚ) : GaugeColor :=
  if margin ≥ target then .green else if margin > 0 then .amber else .red

/-- The form-field state `recalc` reads (and partly writes).  Numeric fields
are `Option ℚ` as parsed by `valNum`; `client` and `orientType` are the raw
select values; `autoSickCalc` is true when the checkbox is checked or absent. -/
structure FormState where
  client : String
  billRegular : Option ℚ
  billOT : Option ℚ
  payRegular : Option ℚ
  payOT : Option ℚ
  hrsRegular : Option ℚ
  hrsOT : Option ℚ
  contractLen : Option ℚ
  houseDaily : Option ℚ
  mealsDaily : Option ℚ
  orientType : String
  orientHours : Option ℚ
  orientPay : Option ℚ
  bonusStart : Option ℚ
  bonusComplete : Option ℚ
  bcgReimb : Option ℚ
  sickHoursField : Option ℚ
  scheduleDays : Option ℚ
  autoSickCalc : Bool
deriving DecidableEq

/-- Every derived figure `recalc` computes, displays or writes back.
`payOTField` and `sickHoursField` are the values written back into the
`pay_ot` and `sick_hours` inputs (`none` = field cleared to the empty string). -/
structure Output where
  hrAfterFee : ℚ
  otHrAfterFee : ℚ
  ND : ℚ
  NW : ℚ
  NH : ℚ
  HA_hourly : ℚ
  MI_hourly : ℚ
  contractRegularHours : ℚ
  contractOTHours : ℚ
  totalContractHours : ℚ
  sickHours : ℚ
  startBonusHourly : ℚ
  completeBonusHourly : ℚ
  bcgHourly : ℚ
  sickHourly : ℚ
  orientPayRatePerHr : ℚ
  totalOrientationPay : ℚ
  orientationHourly : ℚ
  PT_OVERTIME : ℚ
  dailyRegularHours : ℚ
  OT_if_above_8h : ℚ
  OT_rate_if_above_40 : ℚ
  weeklyOnW2Taxable : ℚ
  totalWeeklyTaxableWithOT : ℚ
  weeklyStipendNT : ℚ
  weeklyGross : ℚ
  weeklyBillingClient : ℚ
  monthlyBillingClient : ℚ
  contractBillingClient : ℚ
  hourlyMargin : ℚ
  otMargin : ℚ
  weeklyNET : ℚ
  monthlyNET : ℚ
  contractNET : ℚ
  npTaxDaily : ℚ
  npTaxMonthly : ℚ
  npNtMonthly : ℚ
  npTotalHourly : ℚ
  npTotalDaily : ℚ
  npTotalWeekly : ℚ
  npTotalMonthly : ℚ
  gmsg : GaugeMsg
  gcolor : GaugeColor
  gprogress : ℚ
  payOTField : Option ℚ
  sickHoursField : Option ℚ
deriving DecidableEq

/-- The calculation engine: one pass of `recalc` over the form state,
translated line by line from `src/index.tsx`. -/
def compute (i : FormState) : Output :=
  let fee := clientFee i.client
  let billR := valNum i.billRegular 0
  let billOTv := valNum i.billOT 0
  let payR := valNum i.payRegular 0
  let hrsR := valNum i.hrsRegular 0
  let hrsOTv := valNum i.hrsOT 0
  let weeks := valNum i.contractLen 0
  let houseDaily := valNum i.houseDaily 0
  let mealsDaily := valNum i.mealsDaily 0
  let orientHours := valNum i.orientHours 0
  let orientPayV := valNum i.orientPay 0
  let bonusStart := valNum i.bonusStart 0
  let bonusComplete := valNum i.bonusComplete 0
  let bcgReimb := valNum i.bcgReimb 0
  let scheduleDays := valNum i.scheduleDays DEFAULT_SCHEDULE_DAYS
  let hrAfterFee := billR * (1 - fee)
  let otHrAfterFee := billOTv * (1 - fee)
  let ND := houseDaily + mealsDaily
  let NW := ND * 7
  let NH := stipendHourly hrsR NW
  let HA_hourly := stipendHourly hrsR (houseDaily * 7)
  let MI_hourly := stipendHourly hrsR (mealsDaily * 7)
  let contractRegularHours := hrsR * weeks
  let contractOTHours := hrsOTv * weeks
  let totalContractHours := contractRegularHours + contractOTHours
  let autoSickHours := totalContractHours / 30
  let sickField : Option ℚ :=
    if i.autoSickCalc then
      (if autoSickHours > 0 then some (toFixed2 autoSickHours) else none)
    else i.sickHoursField
  let sickHours := valNum sickField autoSickHours
  let startBonusHourly := spreadOverHours bonusStart contractRegularHours
  let completeBonusHourly := spreadOverHours bonusComplete contractRegularHours
  let bcgHourly := spreadOverHours bcgReimb contractRegularHours
  let sickHourly := spreadOverHours (sickHours * payR) contractRegularHours
  let effectiveOrientPay := if i.orientType = "Non Billable" then 33/2 else orientPayV
  let orientPayRatePerHr :=
    if i.orientType = "Billable" then payR + HA_hourly + MI_hourly
    else effectiveOrientPay
  let totalOrientationPay := orientHours * orientPayRatePerHr
  let orientationHourly :=
    if i.orientType = "Non Billable" ∧ contractRegularHours > 0 then
      totalOrientationPay / contractRegularHours
    else 0
  let PT_OVERTIME := payR * (3/2)
  let dailyRegularHours := hrsR / max 1 scheduleDays
  let OT_if_above_8h := if dailyRegularHours > 8 then dailyRegularHours - 8 else 0
  let OT_rate_if_above_40 := if hrsR > 40 then PT_OVERTIME + NH else 0
  let weeklyOnW2Taxable :=
    if hrsR > 40 then
      ((hrsR - OT_if_above_8h * scheduleDays) * payR)
        + ((OT_if_above_8h * scheduleDays) * OT_rate_if_above_40)
    else hrsR * payR
  let totalWeeklyTaxableWithOT := weeklyOnW2Taxable + hrsOTv * PT_OVERTIME
  let weeklyStipendNT := if hrsR > 40 then hrsR * NW / 40 else NW
  let weeklyGross := weeklyOnW2Taxable + weeklyStipendNT
  let weeklyBillingClient := hrsR * hrAfterFee + hrsOTv * otHrAfterFee
  let monthlyBillingClient := weeklyBillingClient * WEEKS_IN_MONTH
  let contractBillingClient := weeklyBillingClient * weeks
  let hourlyMargin :=
    hrAfterFee
      - payR * BURDEN
      - (NH + bcgHourly)
      - (startBonusHourly + completeBonusHourly + sickHourly) * BURDEN
      - (if i.orientType = "Non Billable" then orientationHourly * BURDEN else 0)
  let otMargin := otHrAfterFee - PT_OVERTIME * BURDEN
  let weeklyNET := hourlyMargin * hrsR + otMargin * hrsOTv
  let monthlyNET := weeklyNET * WEEKS_IN_MONTH
  let contractNET := weeklyNET * weeks
  { hrAfterFee := hrAfterFee
    otHrAfterFee := otHrAfterFee
    ND := ND
    NW := NW
    NH := NH
    HA_hourly := HA_hourly
    MI_hourly := MI_hourly
    contractRegularHours := contractRegularHours
    contractOTHours := contractOTHours
    totalContractHours := totalContractHours
    sickHours := sickHours
    startBonusHourly := startBonusHourly
    completeBonusHourly := completeBonusHourly
    bcgHourly := bcgHourly
    sickHourly := sickHourly
    orientPayRatePerHr := orientPayRatePerHr
    totalOrientationPay := totalOrientationPay
    orientationHourly := orientationHourly
    PT_OVERTIME := PT_OVERTIME
    dailyRegularHours := dailyRegularHours
    OT_if_above_8h := OT_if_above_8h
    OT_rate_if_above_40 := OT_rate_if_above_40
    weeklyOnW2Taxable := weeklyOnW2Taxable
    totalWeeklyTaxableWithOT := totalWeeklyTaxableWithOT
    weeklyStipendNT := weeklyStipendNT
    weeklyGross := weeklyGross
    weeklyBillingClient := weeklyBillingClient
    monthlyBillingClient := monthlyBillingClient
    contractBillingClient := contractBillingClient
    hourlyMargin := hourlyMargin
    otMargin := otMargin
    weeklyNET := weeklyNET
    monthlyNET := monthlyNET
    contractNET := contractNET
    npTaxDaily := payR * dailyRegularHours
    npTaxMonthly := totalWeeklyTaxableWithOT * WEEKS_IN_MONTH
    npNtMonthly := weeklyStipendNT * WEEKS_IN_MONTH
    npTotalHourly := payR + NH
    npTotalDaily := payR * dailyRegularHours + ND
    npTotalWeekly := totalWeeklyTaxableWithOT + weeklyStipendNT
    npTotalMonthly := (totalWeeklyTaxableWithOT + weeklyStipendNT) * WEEKS_IN_MONTH
    gmsg := gaugeMsgOf hourlyMargin 20 billR
    gcolor := gaugeColorOf hourlyMargin 20
    gprogress := gaugeProgress hourlyMargin 20
    payOTField := if payR > 0 then some (toFixed2 PT_OVERTIME) else none
    sickHoursField := sickField }

/-- The write-backs into the input space performed by one run of `recalc`:
the `sick_hours` field (conditionally rewritten) and the `pay_ot` field. -/
def writeBack (i : FormState) : FormState :=
  { i with
    payOT := (compute i).payOTField
    sickHoursField := (compute i).sickHoursField }

/-- Checked division: `none` exactly when the divisor is zero.  Used to show
every division the engine performs is guarded. -/
def cdiv (a b : ℚ) : Option ℚ := if b = 0 then none else some (a / b)

/-- `stipendHourly` with checked divisions. -/
def stipendHourlyChecked (hrsR w : ℚ) : Option ℚ :=
  if hrsR > 40 then cdiv w 40 else if hrsR > 0 then cdiv w hrsR else some 0

/-- `spreadOverHours` with checked division. -/
def spreadOverHoursChecked (amount cr : ℚ) : Option ℚ :=
  if cr > 0 then cdiv amount cr else some 0

/-- `toFixed2` with checked division. -/
def toFixed2Checked (q : ℚ) : Option ℚ := cdiv (round (q * 100) : ℚ) 100

/-- `gaugeProgress` with checked division. -/
def gaugeProgressChecked (margin target : ℚ) : Option ℚ :=
  (if target > 0 then cdiv margin (target * 2) else some 0).map
    (fun p => max 0 (min 1 p))

/-- One pass of `recalc` with every division checked: it returns `none` as
soon as any division of the source would divide by zero. -/
def computeChecked (i : FormState) : Option Output :=
  let fee := clientFee i.client
  let billR := valNum i.billRegular 0
  let billOTv := valNum i.billOT 0
  let payR := valNum i.payRegular 0
  let hrsR := valNum i.hrsRegular 0
  let hrsOTv := valNum i.hrsOT 0
  let weeks := valNum i.contractLen 0
  let houseDaily := valNum i.houseDaily 0
  let mealsDaily := valNum i.mealsDaily 0
  let orientHours := valNum i.orientHours 0
  let orientPayV := valNum i.orientPay 0
  let bonusStart := valNum i.bonusStart 0
  let bonusComplete := valNum i.bonusComplete 0
  let bcgReimb := valNum i.bcgReimb 0
  let scheduleDays := valNum i.scheduleDays DEFAULT_SCHEDULE_DAYS
  let hrAfterFee := billR * (1 - fee)
  let otHrAfterFee := billOTv * (1 - fee)
  let ND := houseDaily + mealsDaily
  let NW := ND * 7
  (stipendHourlyChecked hrsR NW).bind fun NH =>
  (stipendHourlyChecked hrsR (houseDaily * 7)).bind fun HA_hourly =>
  (stipendHourlyChecked hrsR (mealsDaily * 7)).bind fun MI_hourly =>
  let contractRegularHours := hrsR * weeks
  let contractOTHours := hrsOTv * weeks
  let totalContractHours := contractRegularHours + contractOTHours
  (cdiv totalContractHours 30).bind fun autoSickHours =>
  let sickFieldChecked : Option (Option ℚ) :=
    if i.autoSickCalc then
      (if autoSickHours > 0 then
        (toFixed2Checked autoSickHours).map some
      else some none)
    else some i.sickHoursField
  sickFieldChecked.bind fun sickField =>
  let sickHours := valNum sickField autoSickHours
  (spreadOverHoursChecked bonusStart contractRegularHours).bind fun startBonusHourly =>
  (spreadOverHoursChecked bonusComplete contractRegularHours).bind fun completeBonusHourly =>
  (spreadOverHoursChecked bcgReimb contractRegularHours).bind fun bcgHourly =>
  (spreadOverHoursChecked (sickHours * payR) contractRegularHours).bind fun sickHourly =>
  let effectiveOrientPay := if i.orientType = "Non Billable" then 33/2 else orientPayV
  let orientPayRatePerHr :=
    if i.orientType = "Billable" then payR + HA_hourly + MI_hourly
    else effectiveOrientPay
  let totalOrientationPay := orientHours * orientPayRatePerHr
  (if i.orientType = "Non Billable" ∧ contractRegularHours > 0 then
      cdiv totalOrientationPay contractRegularHours
    else some 0).bind fun orientationHourly =>
  let PT_OVERTIME := payR * (3/2)
  (cdiv hrsR (max 1 scheduleDays)).bind fun dailyRegularHours =>
  let OT_if_above_8h := if dailyRegularHours > 8 then dailyRegularHours - 8 else 0
  let OT_rate_if_above_40 := if hrsR > 40 then PT_OVERTIME + NH else 0
  let weeklyOnW2Taxable :=
    if hrsR > 40 then
      ((hrsR - OT_if_above_8h * scheduleDays) * payR)
        + ((OT_if_above_8h * scheduleDays) * OT_rate_if_above_40)
    else hrsR * payR
  let totalWeeklyTaxableWithOT := weeklyOnW2Taxable + hrsOTv * PT_OVERTIME
  (if hrsR > 40 then cdiv (hrsR * NW) 40 else some NW).bind fun weeklyStipendNT =>
  let weeklyGross := weeklyOnW2Taxable + weeklyStipendNT
  let weeklyBillingClient := hrsR * hrAfterFee + hrsOTv * otHrAfterFee
  let monthlyBillingClient := weeklyBillingClient * WEEKS_IN_MONTH
  let contractBillingClient := weeklyBillingClient * weeks
  let hourlyMargin :=
    hrAfterFee
      - payR * BURDEN
      - (NH + bcgHourly)
      - (startBonusHourly + completeBonusHourly + sickHourly) * BURDEN
      - (if i.orientType = "Non Billable" then orientationHourly * BURDEN else 0)
  let otMargin := otHrAfterFee - PT_OVERTIME * BURDEN
  let weeklyNET := hourlyMargin * hrsR + otMargin * hrsOTv
  let monthlyNET := weeklyNET * WEEKS_IN_MONTH
  let contractNET := weeklyNET * weeks
  (gaugeProgressChecked hourlyMargin 20).bind fun gprogress =>
  ((if payR > 0 then (toFixed2Checked PT_OVERTIME).map some else some none)).bind
    fun payOTField =>
  some
  { hrAfterFee := hrAfterFee
    otHrAfterFee := otHrAfterFee
    ND := ND
    NW := NW
    NH := NH
    HA_hourly := HA_hourly
    MI_hourly := MI_hourly
    contractRegularHours := contractRegularHours
    contractOTHours := contractOTHours
    totalContractHours := totalContractHours
    sickHours := sickHours
    startBonusHourly := startBonusHourly
    completeBonusHourly := completeBonusHourly
    bcgHourly := bcgHourly
    sickHourly := sickHourly
    orientPayRatePerHr := orientPayRatePerHr
    totalOrientationPay := totalOrientationPay
    orientationHourly := orientationHourly
    PT_OVERTIME := PT_OVERTIME
    dailyRegularHours := dailyRegularHours
    OT_if_above_8h := OT_if_above_8h
    OT_rate_if_above_40 := OT_rate_if_above_40
    weeklyOnW2Taxable := weeklyOnW2Taxable
    totalWeeklyTaxableWithOT := totalWeeklyTaxableWithOT
    weeklyStipendNT := weeklyStipendNT
    weeklyGross := weeklyGross
    weeklyBillingClient := weeklyBillingClient
    monthlyBillingClient := monthlyBillingClient
    contractBillingClient := contractBillingClient
    hourlyMargin := hourlyMargin
    otMargin := otMargin
    weeklyNET := weeklyNET
    monthlyNET := monthlyNET
    contractNET := contractNET
    npTaxDaily := payR * dailyRegularHours
    npTaxMonthly := totalWeeklyTaxableWithOT * WEEKS_IN_MONTH
    npNtMonthly := weeklyStipendNT * WEEKS_IN_MONTH
    npTotalHourly := payR + NH
    npTotalDaily := payR * dailyRegularHours + ND
    npTotalWeekly := totalWeeklyTaxableWithOT + weeklyStipendNT
    npTotalMonthly := (totalWeeklyTaxableWithOT + weeklyStipendNT) * WEEKS_IN_MONTH
    gmsg := gaugeMsgOf hourlyMargin 20 billR
    gcolor := gaugeColorOf hourlyMargin 20
    gprogress := gprogress
    payOTField := payOTField
    sickHoursField := sickField }

/-- A blank form: every numeric field empty, defaults as `init` leaves them. -/
def blankForm : FormState :=
  { client := "SimpliFI"
    billRegular := none
    billOT := none
    payRegular := none
    payOT := none
    hrsRegular := none
    hrsOT := none
    contractLen := none
    houseDaily := none
    mealsDaily := none
    orientType := "Non Billable"
    orientHours := none
    orientPay := none
    bonusStart := none
    bonusComplete := none
    bcgReimb := none
    sickHoursField := none
    scheduleDays := none
    autoSickCalc := true }

lemma cdiv_of_ne_zero (a : ℚ) {b : ℚ} (h : b ≠ 0) : cdiv a b = some (a / b) := by
  simp [cdiv, h]

lemma stipendHourlyChecked_eq (hrsR w : ℚ) :
    stipendHourlyChecked hrsR w = some (stipendHourly hrsR w) := by
  unfold stipendHourlyChecked stipendHourly
  split
  · exact cdiv_of_ne_zero w (by norm_num)
  · split
    · exact cdiv_of_ne_zero w (ne_of_gt (by assumption))
    · rfl

lemma spreadOverHoursChecked_eq (amount cr : ℚ) :
    spreadOverHoursChecked amount cr = some (spreadOverHours amount cr) := by
  unfold spreadOverHoursChecked spreadOverHours
  split
  · exact cdiv_of_ne_zero amount (ne_of_gt (by assumption))
  · rfl

lemma toFixed2Checked_eq (q : ℚ) : toFixed2Checked q = some (toFixed2 q) := by
  unfold toFixed2Checked toFixed2
  exact cdiv_of_ne_zero _ (by norm_num)

lemma gaugeProgressChecked_eq (margin target : ℚ) :
    gaugeProgressChecked margin target = some (gaugeProgress margin target) := by
  unfold gaugeProgressChecked gaugeProgress
  split
  · rw [cdiv_of_ne_zero margin (by positivity), Option.map_some']
  · rfl

lemma cdiv_thirty (a : ℚ) : cdiv a 30 = some (a / 30) :=
  cdiv_of_ne_zero a (by norm_num)

lemma cdiv_max_one (a s : ℚ) : cdiv a (max 1 s) = some (a / max 1 s) :=
  cdiv_of_ne_zero a (by positivity)

lemma ite_cdiv_pos (P : Prop) [Decidable P] (t cr : ℚ) (h : P → 0 < cr) :
    (if P then cdiv t cr else some 0) = some (if P then t / cr else 0) := by
  split
  · exact cdiv_of_ne_zero t (ne_of_gt (h (by assumption)))
  · rfl

lemma sickFieldChecked_eq (b : Bool) (auto : ℚ) (fld : Option ℚ) :
    (if b then
        (if auto > 0 then (toFixed2Checked auto).map some else some none)
      else some fld) =
      some (if b then (if auto > 0 then some (toFixed2 auto) else none) else fld) := by
  cases b
  · rfl
  · simp only [if_true]
    split
    · rw [toFixed2Checked_eq, Option.map_some']
    · rfl

lemma payOTChecked_eq (payR pt : ℚ) :
    (if payR > 0 then (toFixed2Checked pt).map some else some none) =
      some (if payR > 0 then some (toFixed2 pt) else none) := by
  split
  · rw [toFixed2Checked_eq, Option.map_some']
  · rfl

lemma stipendNTChecked_eq (hrsR x w : ℚ) :
    (if hrsR > 40 then cdiv x 40 else some w) =
      some (if hrsR > 40 then x / 40 else w) := by
  split
  · exact cdiv_of_ne_zero x (by norm_num)
  · rfl

lemma orientChecked_eq (s : String) (t cr : ℚ) :
    (if s = "Non Billable" ∧ cr > 0 then cdiv t cr else some 0) =
      some (if s = "Non Billable" ∧ cr > 0 then t / cr else 0) :=
  ite_cdiv_pos _ t cr (fun h => h.2)

lemma someBind {α β : Type} (a : α) (f : α → Option β) : (some a).bind f = f a := rfl

lemma someIte {α : Type} (c : Prop) [Decidable c] (x y : α) :
    (if c then some x else some y) = some (if c then x else y) :=
  (apply_ite some c x y).symm

/-- C7: the engine is total: every division of `recalc` (stipend hourlies,
one-time spreads, sick accrual, daily-hours divisor, gauge progress,
two-decimal rounding) is guarded, so the checked engine always succeeds and
returns exactly the values of `compute` — no evaluation ever divides by zero
or fails, for every form state. -/
theorem computeChecked_total (i : FormState) : computeChecked i = some (compute i) := by
  unfold computeChecked compute
  simp only [stipendHourlyChecked_eq, spreadOverHoursChecked_eq, gaugeProgressChecked_eq,
    cdiv_thirty, cdiv_max_one, sickFieldChecked_eq, payOTChecked_eq, stipendNTChecked_eq,
    orientChecked_eq, someIte, someBind]

/-- C1: the hourly gross margin equals the after-fee bill rate, minus burdened
W-2 pay, minus the unburdened stipend-hourly and BCG-hourly, minus the burdened
one-time/sick hourly spreads, minus the burdened non-billable orientation
spread (0 when orientation is billable), with burden `1.23`. -/
theorem hourlyMargin_formula (i : FormState) :
    (compute i).hourlyMargin =
      (compute i).hrAfterFee
        - valNum i.payRegular 0 * (123/100 : ℚ)
        - ((compute i).NH + (compute i).bcgHourly)
        - ((compute i).startBonusHourly + (compute i).completeBonusHourly
            + (compute i).sickHourly) * (123/100 : ℚ)
        - (if i.orientType = "Non Billable" then
            (compute i).orientationHourly * (123/100 : ℚ)
          else 0) := rfl

/-- C2: when `hoursRegular > 40`, the weekly taxable pay before the separate
OT hours splits the week into `hoursRegular - otExcessHours*scheduleDays`
hours at `payRegular` and `otExcessHours*scheduleDays` hours at
`payRegular*1.5 + NH`, with
`otExcessHours = max 0 (hoursRegular / max 1 scheduleDays - 8)`; when
`hoursRegular ≤ 40` it is `hoursRegular * payRegular`. -/
theorem weeklyOnW2Taxable_formula (i : FormState) :
    (valNum i.hrsRegular 0 > 40 →
      (compute i).weeklyOnW2Taxable =
        (valNum i.hrsRegular 0
            - max 0 (valNum i.hrsRegular 0
                / max 1 (valNum i.scheduleDays DEFAULT_SCHEDULE_DAYS) - 8)
              * valNum i.scheduleDays DEFAULT_SCHEDULE_DAYS)
            * valNum i.payRegular 0
          + (max 0 (valNum i.hrsRegular 0
                / max 1 (valNum i.scheduleDays DEFAULT_SCHEDULE_DAYS) - 8)
              * valNum i.scheduleDays DEFAULT_SCHEDULE_DAYS)
            * (valNum i.payRegular 0 * (3/2) + (compute i).NH))
    ∧ (valNum i.hrsRegular 0 ≤ 40 →
      (compute i).weeklyOnW2Taxable = valNum i.hrsRegular 0 * valNum i.payRegular 0) := by
  have hmax : ∀ d : ℚ, (if d > 8 then d - 8 else 0) = max 0 (d - 8) := by
    intro d
    rcases lt_or_le 8 d with h | h
    · rw [if_pos h, max_eq_right (by linarith)]
    · rw [if_neg (not_lt.mpr h), max_eq_left (by linarith)]
  constructor
  · intro h
    show (if valNum i.hrsRegular 0 > 40 then _ else _) = _
    rw [if_pos h, if_pos h, hmax]
    rfl
  · intro h
    show (if valNum i.hrsRegular 0 > 40 then _ else _) = _
    rw [if_neg (not_lt.mpr h)]

/-- Sanity check: the worked example of the reference sheet
(billRegular 50, payRegular 30, hoursRegular 36, contractWeeks 13,
houseDaily 20, mealsDaily 15, SimpliFI fee 6%) gives an after-fee rate of
exactly 47 and auto sick hours 468/30 = 15.6. -/
theorem workedExample_eval :
    (compute { blankForm with
        billRegular := some 50, payRegular := some 30, hrsRegular := some 36,
        contractLen := some 13, houseDaily := some 20, mealsDaily := some 15,
        orientHours := some 8 }).hrAfterFee = 47 ∧
    (compute { blankForm with
        billRegular := some 50, payRegular := some 30, hrsRegular := some 36,
        contractLen := some 13, houseDaily := some 20, mealsDaily := some 15,
        orientHours := some 8 }).sickHours = 78/5 := by
  constructor <;>
  · simp [compute, blankForm, valNum, clientFee, CLIENT_FEES, List.lookup,
      stipendHourly, spreadOverHours, toFixed2, round_eq, DEFAULT_SCHEDULE_DAYS]
    norm_num

/-- Input used to exercise C2: 45 regular hours over a 5-day schedule at
pay rate 30. -/
def exIn2 : FormState :=
  { blankForm with hrsRegular := some 45, payRegular := some 30, scheduleDays := some 5 }

/-- Witness for C2 at `exIn2`: 45 hours and 5 schedule days give one daily
excess hour, so the week splits 40 hours at 30 and 5 hours at 45, i.e. 1425. -/
theorem weeklyOnW2Taxable_formula_witness :
    valNum exIn2.hrsRegular 0 > 40 ∧ (compute exIn2).weeklyOnW2Taxable = 1425 := by
  constructor
  · norm_num [exIn2, blankForm, valNum]
  · rw [(weeklyOnW2Taxable_formula exIn2).1 (by norm_num [exIn2, blankForm, valNum])]
    simp [compute, exIn2, blankForm, valNum, stipendHourly, DEFAULT_SCHEDULE_DAYS]
    norm_num

/-- Input used to refute C3: one regular contract hour in total, auto sick
calculation on. -/
def exIn3 : FormState :=
  { blankForm with hrsRegular := some 1, contractLen := some 1 }

/-- C3 counterexample: with one regular contract hour and autoSickCalc on,
`totalContractHours / 30 = 1/30`, but the engine writes
`(1/30).toFixed(2) = "0.03"` into the sick-hours field and reads it back, so
the sick-hours value actually used is 3/100 ≠ 1/30: the claimed exact equality
fails. -/
theorem sickHours_claim_counterexample :
    (compute exIn3).totalContractHours = 1 ∧
    (compute exIn3).sickHours = 3/100 ∧
    (compute exIn3).sickHours ≠ (compute exIn3).totalContractHours / 30 := by
  refine ⟨?_, ?_, ?_⟩ <;>
    simp [compute, exIn3, blankForm, valNum, toFixed2, round_eq] <;>
    norm_num

/-- C3 (amended): with autoSickCalc on, the sick hours used are
`totalContractHours / 30` rounded to two decimals when that quotient is
positive, and the raw quotient otherwise (the field is cleared and the read
falls back to the raw value); with autoSickCalc off, the sick hours used are
the override field, with a missing or unparsable override falling back to the
auto value `totalContractHours / 30` (not to 0). -/
theorem sickHours_code_spec (i : FormState) :
    (i.autoSickCalc = true →
      (compute i).sickHours =
        (if (compute i).totalContractHours / 30 > 0 then
          toFixed2 ((compute i).totalContractHours / 30)
        else (compute i).totalContractHours / 30))
    ∧ (i.autoSickCalc = false →
      (compute i).sickHours =
        valNum i.sickHoursField ((compute i).totalContractHours / 30)) := by
  constructor <;> intro h
  · simp only [compute, h, if_true]
    split <;> simp [valNum]
  · simp [compute, h]

/-- Witness for the amended C3 at `exIn3`: autoSickCalc is on and the sick
hours used evaluate to 0.03. -/
theorem sickHours_code_spec_witness :
    exIn3.autoSickCalc = true ∧ (compute exIn3).sickHours = 3/100 := by
  refine ⟨rfl, ?_⟩
  rw [(sickHours_code_spec exIn3).1 rfl]
  simp [compute, exIn3, blankForm, valNum, toFixed2, round_eq]
  norm_num

/-- Input used to refute C4: pay rate 11.111. -/
def exIn4 : FormState := { blankForm with payRegular := some (11111/1000) }

/-- C4 counterexample: with payRegular = 11.111 the engine writes
`(11.111*1.5).toFixed(2) = "16.67"` into the payOT field, and
16.67 ≠ 11.111 * 1.5 = 16.6665: the claimed exact equality fails. -/
theorem payOT_claim_counterexample :
    (compute exIn4).payOTField = some (1667/100) ∧
    (1667/100 : ℚ) ≠ (11111/1000 : ℚ) * (3/2) := by
  constructor
  · simp [compute, exIn4, blankForm, valNum, toFixed2, round_eq]
    norm_num
  · norm_num

/-- C4 (amended): the value written back into the payOT field is
`payRegular * 1.5` rounded to two decimals whenever `payRegular > 0`
(regardless of any previously supplied payOT value), and the field is cleared
(empty, read as 0) when `payRegular ≤ 0`, including `payRegular = 0`. -/
theorem payOT_writeback_spec (i : FormState) :
    (valNum i.payRegular 0 > 0 →
      (compute i).payOTField = some (toFixed2 (valNum i.payRegular 0 * (3/2))))
    ∧ (¬ valNum i.payRegular 0 > 0 → (compute i).payOTField = none) := by
  constructor <;> intro h
  · show (if valNum i.payRegular 0 > 0 then _ else _) = _
    rw [if_pos h]
  · show (if valNum i.payRegular 0 > 0 then _ else _) = _
    rw [if_neg h]

/-- Input used to exercise the amended C4: pay rate 30. -/
def exIn4b : FormState := { blankForm with payRegular := some 30 }

/-- Witness for the amended C4 at `exIn4b`: pay 30 writes back exactly 45. -/
theorem payOT_writeback_spec_witness :
    valNum exIn4b.payRegular 0 > 0 ∧ (compute exIn4b).payOTField = some 45 := by
  refine ⟨by norm_num [exIn4b, blankForm, valNum], ?_⟩
  rw [(payOT_writeback_spec exIn4b).1 (by norm_num [exIn4b, blankForm, valNum])]
  simp [exIn4b, blankForm, valNum, toFixed2, round_eq]
  norm_num

/-- C5: the effective orientation pay rate is the fixed 16.5 when the type is
"Non Billable" and `payRegular + HA_hourly + MI_hourly` when "Billable";
total orientation pay is the orientation hours times that rate; and the
orientation hourly spread is `totalOrientationPay / contractRegularHours`
exactly when the type is "Non Billable" and `contractRegularHours > 0`, and
0 otherwise. -/
theorem orientation_spec (i : FormState) :
    (i.orientType = "Non Billable" → (compute i).orientPayRatePerHr = 33/2)
    ∧ (i.orientType = "Billable" →
        (compute i).orientPayRatePerHr =
          valNum i.payRegular 0 + (compute i).HA_hourly + (compute i).MI_hourly)
    ∧ (compute i).totalOrientationPay =
        valNum i.orientHours 0 * (compute i).orientPayRatePerHr
    ∧ (i.orientType = "Non Billable" ∧ (compute i).contractRegularHours > 0 →
        (compute i).orientationHourly =
          (compute i).totalOrientationPay / (compute i).contractRegularHours)
    ∧ (¬(i.orientType = "Non Billable" ∧ (compute i).contractRegularHours > 0) →
        (compute i).orientationHourly = 0) := by
  refine ⟨fun h => ?_, fun h => ?_, rfl, fun h => ?_, fun h => ?_⟩
  · simp [compute, h]
  · simp [compute, h]
  · show (if i.orientType = "Non Billable" ∧
        valNum i.hrsRegular 0 * valNum i.contractLen 0 > 0 then _ else _) = _
    rw [if_pos ⟨h.1, h.2⟩]
    rfl
  · show (if i.orientType = "Non Billable" ∧
        valNum i.hrsRegular 0 * valNum i.contractLen 0 > 0 then _ else _) = _
    split
    · exact absurd (by assumption) h
    · rfl

/-- Input used to exercise C5: non-billable orientation, 8 orientation hours,
36 hours over 13 weeks. -/
def exIn5 : FormState :=
  { blankForm with orientHours := some 8, hrsRegular := some 36, contractLen := some 13 }

/-- Witness for C5 at `exIn5`: non-billable orientation gets the fixed 16.5
rate and the non-billable spread formula applies (468 contract hours). -/
theorem orientation_spec_witness :
    (compute exIn5).orientPayRatePerHr = 33/2 ∧
    (compute exIn5).orientationHourly =
      (compute exIn5).totalOrientationPay / (compute exIn5).contractRegularHours := by
  refine ⟨(orientation_spec exIn5).1 rfl, ?_⟩
  exact (orientation_spec exIn5).2.2.2.1
    ⟨rfl, by norm_num [compute, exIn5, blankForm, valNum]⟩

/-- C6: against the fixed target 20 of the call site, the gauge message is
no-input when the margin is 0 and the bill-rate input is 0, negative when the
margin is negative, below-target when `0 ≤ margin < 20` (outside the no-input
case), healthy when `margin ≥ 20`; the arc is green when `margin ≥ 20`
(so margin = target is healthy and green), amber when `0 < margin < 20`, red
when `margin ≤ 0`; and the progress fraction is `clamp (margin/(2*20)) 0 1`. -/
theorem gauge_spec (m b : ℚ) :
    (m = 0 ∧ b = 0 → gaugeMsgOf m 20 b = GaugeMsg.noInput)
    ∧ (m < 0 → gaugeMsgOf m 20 b = GaugeMsg.negative)
    ∧ (¬(m = 0 ∧ b = 0) → 0 ≤ m → m < 20 → gaugeMsgOf m 20 b = GaugeMsg.belowTarget)
    ∧ (20 ≤ m → gaugeMsgOf m 20 b = GaugeMsg.healthy)
    ∧ (20 ≤ m → gaugeColorOf m 20 = GaugeColor.green)
    ∧ (0 < m → m < 20 → gaugeColorOf m 20 = GaugeColor.amber)
    ∧ (m ≤ 0 → gaugeColorOf m 20 = GaugeColor.red)
    ∧ gaugeProgress m 20 = max 0 (min 1 (m / (2 * 20))) := by
  refine ⟨fun h => ?_, fun h => ?_, fun h1 h2 h3 => ?_, fun h => ?_,
    fun h => ?_, fun h1 h2 => ?_, fun h => ?_, ?_⟩
  · simp [gaugeMsgOf, h.1, h.2]
  · have hne : ¬(m = 0 ∧ b = 0) := fun hc => absurd hc.1 (ne_of_lt h)
    simp [gaugeMsgOf, hne, h]
  · simp [gaugeMsgOf, h1, not_lt.mpr h2, h3]
  · have hne : ¬(m = 0 ∧ b = 0) := by
      rintro ⟨rfl, -⟩
      norm_num at h
    have h0 : ¬ m < 0 := not_lt.mpr (le_trans (by norm_num) h)
    simp [gaugeMsgOf, hne, h0, not_lt.mpr h]
  · simp [gaugeColorOf, h]
  · simp [gaugeColorOf, not_le.mpr h2, h1]
  · have : ¬ (20:ℚ) ≤ m := not_le.mpr (lt_of_le_of_lt h (by norm_num))
    simp [gaugeColorOf, this, not_lt.mpr h]
  · show max 0 (min 1 (if (20:ℚ) > 0 then m / (20 * 2) else 0)) = _
    rw [if_pos (by norm_num : (20:ℚ) > 0)]
    norm_num

/-- Witness for C6 at margin 20 (equal to the target) and bill rate 5:
healthy, green, progress exactly one half. -/
theorem gauge_spec_witness :
    gaugeMsgOf 20 20 5 = GaugeMsg.healthy ∧ gaugeColorOf 20 20 = GaugeColor.green ∧
    gaugeProgress 20 20 = 1/2 := by
  refine ⟨(gauge_spec 20 5).2.2.2.1 (by norm_num),
    (gauge_spec 20 5).2.2.2.2.1 (by norm_num), ?_⟩
  rw [(gauge_spec 20 5).2.2.2.2.2.2.2]
  norm_num

/-- C8: when the contract regular hours `hoursRegular * contractWeeks` are 0,
all five hourly spreads of one-time amounts — start bonus, completion bonus,
BCG reimbursement, sick pay, and (non-billable) orientation — are 0. -/
theorem zeroContract_spreads_zero (i : FormState)
    (h : valNum i.hrsRegular 0 * valNum i.contractLen 0 = 0) :
    (compute i).startBonusHourly = 0 ∧ (compute i).completeBonusHourly = 0 ∧
    (compute i).bcgHourly = 0 ∧ (compute i).sickHourly = 0 ∧
    (compute i).orientationHourly = 0 := by
  have hn : ¬ valNum i.hrsRegular 0 * valNum i.contractLen 0 > 0 := by
    rw [h]
    norm_num
  refine ⟨?_, ?_, ?_, ?_, ?_⟩ <;> simp [compute, spreadOverHours, hn]

/-- Input used to exercise C8: a 1000 start bonus but no hours and no weeks. -/
def exIn8 : FormState := { blankForm with bonusStart := some 1000 }

/-- Witness for C8 at `exIn8`: contract regular hours 0·0 = 0, every spread 0. -/
theorem zeroContract_spreads_zero_witness :
    (compute exIn8).startBonusHourly = 0 ∧ (compute exIn8).completeBonusHourly = 0 ∧
    (compute exIn8).bcgHourly = 0 ∧ (compute exIn8).sickHourly = 0 ∧
    (compute exIn8).orientationHourly = 0 :=
  zeroContract_spreads_zero exIn8 (by norm_num [exIn8, blankForm, valNum])

/-- C9: running the engine again on the form state left behind by a first run
— after the write-backs of the sick-hours and payOT fields — produces exactly
the same output record: the engine is idempotent over its own write-backs. -/
theorem compute_idempotent (i : FormState) : compute (writeBack i) = compute i := by
  cases h : i.autoSickCalc
  · have hs : (compute i).sickHoursField = i.sickHoursField := by simp [compute, h]
    simp [writeBack, compute, h, hs]
  · simp [writeBack, compute, h]

/-- Input used to exercise C10: non-billable orientation with 8 hours. -/
def exIn10 : FormState := { blankForm with orientHours := some 8 }

/-- C10: with the orientation type one of the two selectable values, the
`orientationPay` field never influences any output: in billable mode the rate
used is pay + stipend hourlies, in non-billable mode the fixed 16.5 — the
field is read but dead in both branches. -/
theorem orientPay_noninterference (i : FormState) (p : Option ℚ)
    (h : i.orientType = "Billable" ∨ i.orientType = "Non Billable") :
    compute { i with orientPay := p } = compute i := by
  rcases h with h | h <;> simp [compute, h]

/-- Witness for C10 at `exIn10`: changing the orientation-pay field to 99
changes no output. -/
theorem orientPay_noninterference_witness :
    compute { exIn10 with orientPay := some 99 } = compute exIn10 :=
  orientPay_noninterference exIn10 (some 99) (Or.inr rfl)

end Sheet
